import Mathlib

/-!
Verification of the `dmg-settings.py` module of burhanusman/gitbar.

The module is a dmgbuild settings script: a sequence of top-level
assignments, two of which read the process environment
(`os.environ.get`) and two of which build paths with `os.path.join`.
We embed the module shallowly: a process environment maps variable
names to optional strings, each top-level binding of the module
becomes a Lean definition of the same name, and the collection of
dmgbuild-recognised settings the module exports is assembled into an
association list of Python-style values (`PyVal`) so that claims about
the shapes of the values, the set of defined setting names and the
possibility of runtime errors can be stated.
-/

namespace DmgSettings

/-- A process environment: `some v` when the variable is set (possibly to
the empty string), `none` when it is unset. -/
def Env : Type := String → Option String

/-- Python values, as far as this module needs them: strings, integers,
`None`, lists, tuples and dicts with string keys. -/
inductive PyVal where
  | str (s : String)
  | int (z : Int)
  | none
  | list (xs : List PyVal)
  | tuple (xs : List PyVal)
  | dict (entries : List (String × PyVal))

/-- `os.environ.get(key, default)`: the variable's value when set (even if
empty), otherwise the default. -/
def environGet (env : Env) (key df : String) : String :=
  (env key).getD df

/-- `os.path.join(a, b)` for POSIX paths, two arguments: an absolute `b`
replaces `a`; otherwise a separator is inserted unless `a` is empty or
already ends in one. -/
def osPathJoin (a b : String) : String :=
  if b.startsWith "/" then b
  else if a = "" ∨ a.endsWith "/" then a ++ b
  else a ++ "/" ++ b

/-- `os.path.basename(p)` for POSIX paths: the part after the last
separator, computed on the character list so that it evaluates by
kernel reduction. -/
def basename (p : String) : String :=
  String.mk ((p.data.reverse.takeWhile fun c => c ≠ '/').reverse)

/-- Line 9: `app_path = os.environ.get('APP_PATH', 'build/Release/GitBar.app')`. -/
def app_path (env : Env) : String :=
  environGet env "APP_PATH" "build/Release/GitBar.app"

/-- Line 10: `dmg_resources = os.environ.get('DMG_RESOURCES', 'dmg-resources')`. -/
def dmg_resources (env : Env) : String :=
  environGet env "DMG_RESOURCES" "dmg-resources"

/-- Line 13: `volume_name = 'GitBar'`. -/
def volume_name : String := "GitBar"

/-- Line 16: `format = 'UDBZ'`. -/
def format : String := "UDBZ"

/-- Line 19: `size = None`. -/
def size : PyVal := PyVal.none

/-- Line 22: `files = [app_path]`. -/
def files (env : Env) : List String := [app_path env]

/-- Line 25: `symlinks = {'Applications': '/Applications'}`. -/
def symlinks : List (String × String) := [("Applications", "/Applications")]

/-- Line 28: `icon = os.path.join(dmg_resources, 'AppIcon.icns')`. -/
def icon (env : Env) : String := osPathJoin (dmg_resources env) "AppIcon.icns"

/-- Line 31: `background = os.path.join(dmg_resources, 'background.png')`. -/
def background (env : Env) : String :=
  osPathJoin (dmg_resources env) "background.png"

/-- Line 34: `window_rect = ((200, 120), (660, 400))`. -/
def window_rect : (Int × Int) × (Int × Int) := ((200, 120), (660, 400))

/-- Line 37: `icon_size = 100`. -/
def icon_size : Int := 100

/-- Lines 41-44: `icon_locations = {'GitBar.app': (180, 200), 'Applications': (480, 200)}`. -/
def icon_locations : List (String × (Int × Int)) :=
  [("GitBar.app", (180, 200)), ("Applications", (480, 200))]

/-- Line 47: `hide_extension = ['GitBar.app']`. -/
def hide_extension : List String := ["GitBar.app"]

/-- Line 50: `text_size = 12`. -/
def text_size : Int := 12

/-- The dmgbuild-recognised settings the module exports, in source order,
each encoded as a `PyVal`. The helper variables `app_path` and
`dmg_resources` of lines 9-10 are not settings of the dmgbuild schema;
they only feed `files`, `icon` and `background`. -/
def moduleBindings (env : Env) : List (String × PyVal) :=
  [ ("volume_name", PyVal.str volume_name),
    ("format", PyVal.str format),
    ("size", size),
    ("files", PyVal.list ((files env).map PyVal.str)),
    ("symlinks", PyVal.dict (symlinks.map fun e => (e.1, PyVal.str e.2))),
    ("icon", PyVal.str (icon env)),
    ("background", PyVal.str (background env)),
    ("window_rect", PyVal.tuple
      [ PyVal.tuple [PyVal.int window_rect.1.1, PyVal.int window_rect.1.2],
        PyVal.tuple [PyVal.int window_rect.2.1, PyVal.int window_rect.2.2] ]),
    ("icon_size", PyVal.int icon_size),
    ("icon_locations", PyVal.dict
      (icon_locations.map fun e => (e.1, PyVal.tuple [PyVal.int e.2.1, PyVal.int e.2.2]))),
    ("hide_extension", PyVal.list (hide_extension.map PyVal.str)),
    ("text_size", PyVal.int text_size) ]

/-- The names of the settings the module defines, in source order. -/
def settingNames : List String :=
  [ "volume_name", "format", "size", "files", "symlinks", "icon",
    "background", "window_rect", "icon_size", "icon_locations",
    "hide_extension", "text_size" ]

/-- The eleven top-level names of the external tool's schema that the
spec lists (volume name, format, file list, symlink map, icon path,
background path, window rectangle, icon size, icon-location map,
hidden-extension list, text size), in the module's naming. -/
def schemaNames : List String :=
  [ "volume_name", "format", "files", "symlinks", "icon", "background",
    "window_rect", "icon_size", "icon_locations", "hide_extension",
    "text_size" ]

/-- Every top-level name the module assigns, in source order (the two
helper path variables followed by the settings). -/
def assignedNames : List String :=
  "app_path" :: "dmg_resources" :: settingNames

/-- `os.environ.get` cannot raise when called with string arguments. -/
def environGetE (env : Env) (key df : String) : Except String String :=
  Except.ok (environGet env key df)

/-- `os.path.join` cannot raise when called with string arguments. -/
def osPathJoinE (a b : String) : Except String String :=
  Except.ok (osPathJoin a b)

/-- Evaluating the module as a statement sequence in an error monad:
the only operations that touch the outside world are the two
`os.environ.get` calls and the two `os.path.join` calls; everything
else is a literal. -/
def evalModuleE (env : Env) : Except String (List (String × PyVal)) := do
  let ap ← environGetE env "APP_PATH" "build/Release/GitBar.app"
  let dr ← environGetE env "DMG_RESOURCES" "dmg-resources"
  let ic ← osPathJoinE dr "AppIcon.icns"
  let bg ← osPathJoinE dr "background.png"
  Except.ok
    [ ("volume_name", PyVal.str "GitBar"),
      ("format", PyVal.str "UDBZ"),
      ("size", PyVal.none),
      ("files", PyVal.list [PyVal.str ap]),
      ("symlinks", PyVal.dict [("Applications", PyVal.str "/Applications")]),
      ("icon", PyVal.str ic),
      ("background", PyVal.str bg),
      ("window_rect", PyVal.tuple
        [ PyVal.tuple [PyVal.int 200, PyVal.int 120],
          PyVal.tuple [PyVal.int 660, PyVal.int 400] ]),
      ("icon_size", PyVal.int 100),
      ("icon_locations", PyVal.dict
        [ ("GitBar.app", PyVal.tuple [PyVal.int 180, PyVal.int 200]),
          ("Applications", PyVal.tuple [PyVal.int 480, PyVal.int 200]) ]),
      ("hide_extension", PyVal.list [PyVal.str "GitBar.app"]),
      ("text_size", PyVal.int 12) ]

/-- The empty environment: neither variable set. -/
def envEmpty : Env := fun _ => Option.none

/-- An environment setting both variables. -/
def envBoth : Env := fun k =>
  if k = "APP_PATH" then Option.some "custom/App.app"
  else if k = "DMG_RESOURCES" then Option.some "res" else Option.none

/-- An environment setting `APP_PATH` to a path whose basename is not
`GitBar.app`. -/
def envFoo : Env := fun k =>
  if k = "APP_PATH" then Option.some "other/Foo.app" else Option.none

/-- C1: for every process environment, the application-bundle path equals
the value of `APP_PATH` when it is set and the default
`build/Release/GitBar.app` when it is unset, and the resources-directory
path equals the value of `DMG_RESOURCES` when set and the default
`dmg-resources` when unset. -/
theorem c1_env_paths (env : Env) :
    (env "APP_PATH" = Option.none → app_path env = "build/Release/GitBar.app") ∧
    (∀ v, env "APP_PATH" = Option.some v → app_path env = v) ∧
    (env "DMG_RESOURCES" = Option.none → dmg_resources env = "dmg-resources") ∧
    (∀ v, env "DMG_RESOURCES" = Option.some v → dmg_resources env = v) := by
  refine ⟨fun h => ?_, fun v h => ?_, fun h => ?_, fun v h => ?_⟩ <;>
    simp [app_path, dmg_resources, environGet, h]

/-- Witness for C1 at two concrete environments: both variables unset, and
both variables set. -/
theorem c1_env_paths_witness :
    app_path envEmpty = "build/Release/GitBar.app" ∧
    app_path envBoth = "custom/App.app" ∧
    dmg_resources envEmpty = "dmg-resources" ∧
    dmg_resources envBoth = "res" :=
  ⟨(c1_env_paths envEmpty).1 rfl,
   (c1_env_paths envBoth).2.1 "custom/App.app" (by simp [envBoth]),
   (c1_env_paths envEmpty).2.2.1 rfl,
   (c1_env_paths envBoth).2.2.2 "res" (by simp [envBoth])⟩

/-- C2: the eight settings the claim lists (volume name, format, symlink
map, window rectangle, icon size, icon-location map, hidden-extension
list, text size) are identical across any two evaluations under arbitrary
environments, while the two environment-parameterized path bindings
`app_path` and `dmg_resources` do vary with the environment. -/
theorem c2_exactly_two_parameterized :
    (∀ e1 e2 : Env, ∀ n ∈ (["volume_name", "format", "symlinks", "window_rect",
        "icon_size", "icon_locations", "hide_extension", "text_size"] : List String),
      (moduleBindings e1).lookup n = (moduleBindings e2).lookup n) ∧
    (∃ e1 e2 : Env, app_path e1 ≠ app_path e2) ∧
    (∃ e1 e2 : Env, dmg_resources e1 ≠ dmg_resources e2) := by
  refine ⟨fun e1 e2 n hn => ?_, ⟨envEmpty, envBoth, ?_⟩, ⟨envEmpty, envBoth, ?_⟩⟩
  · fin_cases hn <;> rfl
  · simp [app_path, environGet, envEmpty, envBoth]
  · simp [dmg_resources, environGet, envEmpty, envBoth]

/-- Witness for C2 at a concrete constant setting and two concrete
environments. -/
theorem c2_exactly_two_parameterized_witness :
    (moduleBindings envEmpty).lookup "format" = (moduleBindings envBoth).lookup "format" :=
  c2_exactly_two_parameterized.1 envEmpty envBoth "format" (by decide)

/-- C3 counterexample: the module defines the top-level setting `size`,
which is not one of the eleven recognized names of the schema the spec
lists, so the module does define a top-level setting outside that
schema. -/
theorem c3_counterexample :
    "size" ∈ (moduleBindings envEmpty).map Prod.fst ∧ "size" ∉ schemaNames := by
  decide

/-- C3 amended: the module defines a top-level setting for each of the
eleven recognized names, and its settings are exactly those eleven
together with the single extra volume-size setting `size`. -/
theorem c3_amended_defined_settings (env : Env) :
    (moduleBindings env).map Prod.fst = settingNames ∧
    settingNames.Perm ("size" :: schemaNames) := by
  exact ⟨rfl, by decide⟩

/-- C4: under every environment each exported setting has the shape the
data model states: strings for the volume name and format, a list of
path strings for the file list, a string-to-string dict for the symlink
map, a pair of integer pairs for the window rectangle, integers for the
icon size and text size, a dict from names to integer coordinate pairs
for the icon locations, and a list of filename strings for the
hidden-extension setting. -/
theorem c4_value_shapes (env : Env) :
    (∃ s, (moduleBindings env).lookup "volume_name" = Option.some (PyVal.str s)) ∧
    (∃ s, (moduleBindings env).lookup "format" = Option.some (PyVal.str s)) ∧
    (∃ ps : List String, (moduleBindings env).lookup "files" =
      Option.some (PyVal.list (ps.map PyVal.str))) ∧
    (∃ es : List (String × String), (moduleBindings env).lookup "symlinks" =
      Option.some (PyVal.dict (es.map fun e => (e.1, PyVal.str e.2)))) ∧
    (∃ px py sx sy : Int, (moduleBindings env).lookup "window_rect" =
      Option.some (PyVal.tuple
        [PyVal.tuple [PyVal.int px, PyVal.int py],
         PyVal.tuple [PyVal.int sx, PyVal.int sy]])) ∧
    (∃ z : Int, (moduleBindings env).lookup "icon_size" = Option.some (PyVal.int z)) ∧
    (∃ locs : List (String × (Int × Int)), (moduleBindings env).lookup "icon_locations" =
      Option.some (PyVal.dict
        (locs.map fun e => (e.1, PyVal.tuple [PyVal.int e.2.1, PyVal.int e.2.2])))) ∧
    (∃ ns : List String, (moduleBindings env).lookup "hide_extension" =
      Option.some (PyVal.list (ns.map PyVal.str))) ∧
    (∃ z : Int, (moduleBindings env).lookup "text_size" = Option.some (PyVal.int z)) :=
  ⟨⟨volume_name, rfl⟩, ⟨format, rfl⟩, ⟨files env, rfl⟩, ⟨symlinks, rfl⟩,
    ⟨200, 120, 660, 400, rfl⟩, ⟨icon_size, rfl⟩, ⟨icon_locations, rfl⟩,
    ⟨hide_extension, rfl⟩, ⟨text_size, rfl⟩⟩

/-- C5: under every environment the symlink map has exactly one entry,
named `Applications`, targeting the path `/Applications`. -/
theorem c5_symlinks_applications (env : Env) :
    symlinks = [("Applications", "/Applications")] ∧
    (moduleBindings env).lookup "symlinks" =
      Option.some (PyVal.dict [("Applications", PyVal.str "/Applications")]) :=
  ⟨rfl, rfl⟩

/-- C6: evaluating the module in an error monad succeeds for every
environment (set, unset or empty variables alike) and yields exactly the
exported bindings: no statement of the module can raise. -/
theorem c6_no_error (env : Env) :
    evalModuleE env = Except.ok (moduleBindings env) := rfl

/-- C7: the module is deterministic and stateless: evaluations under
extensionally identical environments yield identical bindings, and every
top-level name is assigned exactly once (the assignment list has no
duplicate). -/
theorem c7_deterministic_single_assignment :
    (∀ e1 e2 : Env, (∀ k, e1 k = e2 k) → moduleBindings e1 = moduleBindings e2) ∧
    assignedNames.Nodup := by
  refine ⟨fun e1 e2 h => ?_, by decide⟩
  have he : e1 = e2 := funext h
  rw [he]

/-- Witness for C7 at two definitionally distinct but extensionally equal
concrete environments. -/
theorem c7_deterministic_witness :
    moduleBindings envEmpty = moduleBindings (fun _ => (Option.none : Option String)) :=
  c7_deterministic_single_assignment.1 envEmpty
    (fun _ => (Option.none : Option String)) (fun _ => rfl)

/-- C8: under every environment the file list is exactly the singleton
containing the application-bundle path: `APP_PATH` when set, the default
`build/Release/GitBar.app` when unset. -/
theorem c8_files_single_entry (env : Env) :
    files env = [app_path env] ∧ (files env).length = 1 ∧
    (env "APP_PATH" = Option.none → files env = ["build/Release/GitBar.app"]) ∧
    (∀ v, env "APP_PATH" = Option.some v → files env = [v]) := by
  refine ⟨rfl, rfl, fun h => ?_, fun v h => ?_⟩ <;>
    simp [files, app_path, environGet, h]

/-- Witness for C8 at the empty environment and an environment setting
`APP_PATH`. -/
theorem c8_files_single_entry_witness :
    files envEmpty = ["build/Release/GitBar.app"] ∧
    files envBoth = ["custom/App.app"] :=
  ⟨(c8_files_single_entry envEmpty).2.2.1 rfl,
   (c8_files_single_entry envBoth).2.2.2 "custom/App.app" (by simp [envBoth])⟩

/-- C9 counterexample: with `APP_PATH` set to `other/Foo.app`, the
basename of the single file entry is `Foo.app`, which is not a key of the
icon-position mapping, so the mapping's key set is not the basename of
the file entry together with the symlink name, and the positioned item
`GitBar.app` is not an item placed in the image. -/
theorem c9_counterexample :
    files envFoo = ["other/Foo.app"] ∧
    icon_locations.map Prod.fst = ["GitBar.app", "Applications"] ∧
    basename (app_path envFoo) = "Foo.app" ∧
    basename (app_path envFoo) ∉ icon_locations.map Prod.fst := by
  decide

/-- C9 amended: under every environment the icon-position keys are exactly
`GitBar.app` and `Applications` and every hidden-extension entry is such
a key; the keys coincide with the basename of the single file entry
together with the symlink name exactly when `APP_PATH` is unset. -/
theorem c9_amended_icon_keys (env : Env) :
    icon_locations.map Prod.fst = ["GitBar.app", "Applications"] ∧
    (∀ n ∈ hide_extension, n ∈ icon_locations.map Prod.fst) ∧
    (env "APP_PATH" = Option.none →
      (files env).map basename ++ symlinks.map Prod.fst = icon_locations.map Prod.fst) := by
  refine ⟨rfl, by decide, fun h => ?_⟩
  have hf : files env = ["build/Release/GitBar.app"] := by
    simp [files, app_path, environGet, h]
  rw [hf]
  decide

/-- Witness for C9 amended at the empty environment. -/
theorem c9_amended_icon_keys_witness :
    ("GitBar.app" ∈ icon_locations.map Prod.fst) ∧
    (files envEmpty).map basename ++ symlinks.map Prod.fst =
      icon_locations.map Prod.fst :=
  ⟨(c9_amended_icon_keys envEmpty).2.1 "GitBar.app" (by decide),
   (c9_amended_icon_keys envEmpty).2.2 rfl⟩

/-- C10: the module defines the volume-size setting `size`, a name outside
the spec's eleven-name schema, and its value is `None` under every
environment. -/
theorem c10_size_none (env : Env) :
    (moduleBindings env).lookup "size" = Option.some PyVal.none ∧
    size = PyVal.none ∧ "size" ∈ settingNames ∧ "size" ∉ schemaNames :=
  ⟨rfl, rfl, by decide, by decide⟩

end DmgSettings
